import Mathlib

/-!
A shallow embedding of the publisher-side data path of the Aeron client
(`Publication.cpp`, the throughput sample, and the sample configuration),
together with models of the log-buffer / term-appender layer that the
publication delegates to.  Definitions translated directly from source files
are noted as such; parts of the repository whose implementation files are not
available here (headers such as `LogBufferDescriptor.h`, `TermAppender.h`,
`BitUtil.h`, `Publication.h`) are modelled from the specification and marked
`Modelled from the spec:`.
-/

namespace Aeron

/-! ## Frame header constants -/

namespace DataFrameHeader

/-- Modelled from the spec: `DataFrameHeader::LENGTH` (header not under src/).
The fixed data-frame header length: frame length (4) + version (1) + flags (1)
+ type (2) + term offset (4) + session id (4) + stream id (4) + term id (4)
+ reserved (8) = 32 bytes. -/
def LENGTH : Nat := 32

end DataFrameHeader

/-- Modelled from the spec: the fixed frame alignment boundary
("aligned to a fixed alignment boundary (typically 32 bytes)"). -/
def FRAME_ALIGNMENT : Nat := 32

/-- Modelled from the spec: `util::BitUtil::align` (header not under src/) —
rounds `value` up to the next multiple of `alignment`. -/
def align (value alignment : Nat) : Nat :=
  (value + alignment - 1) / alignment * alignment

/-- Modelled from the spec: `alignedFrameLength` "rounds the header+payload
length up to the fixed alignment boundary". -/
def alignedFrameLength (length : Nat) : Nat :=
  align (DataFrameHeader.LENGTH + length) FRAME_ALIGNMENT

/-- Modelled from the spec: partition count of the log — "partition count is
fixed at 3" (`LogBufferDescriptor::PARTITION_COUNT`, header not under src/). -/
def PARTITION_COUNT : Nat := 3

/-! ## Position arithmetic (§4.3), modelled from the spec
(`LogBufferDescriptor.h` is not under src/).  Positions are 64-bit signed
quantities; an arithmetic right shift by `positionBitsToShift` is floor
division by `2 ^ positionBitsToShift`, which on `Int` is `/` (`Int.ediv`)
for a positive divisor. -/

/-- Modelled from the spec: `partitionIndex(termId, initialTermId) -> 0..2`:
`(termId - initialTermId) mod 3`. -/
def partitionIndex (termId initialTermId : Int) : Nat :=
  ((termId - initialTermId) % (PARTITION_COUNT : Int)).toNat

/-- Modelled from the spec: `computeTermBeginPosition`:
`position = termCount(termId) * termLength` where
`termCount = termId - initialTermId` and `termLength = 2 ^ positionBitsToShift`. -/
def computeTermBeginPosition (termId : Int) (positionBitsToShift : Nat) (initialTermId : Int) : Int :=
  (termId - initialTermId) * 2 ^ positionBitsToShift

/-- Modelled from the spec: `computePosition`:
`position = (termCount(termId) * termLength) + termOffset`. -/
def computePosition (termId termOffset : Int) (positionBitsToShift : Nat) (initialTermId : Int) : Int :=
  computeTermBeginPosition termId positionBitsToShift initialTermId + termOffset

/-- Modelled from the spec: `computeTermIdFromPosition` — the inverse of
`computeTermBeginPosition`: the term count is the position shifted down by
`positionBitsToShift` (floor division). -/
def computeTermIdFromPosition (position : Int) (positionBitsToShift : Nat) (initialTermId : Int) : Int :=
  position / 2 ^ positionBitsToShift + initialTermId

/-- Modelled from the spec: reconstruction of the term offset from a position —
the low `positionBitsToShift` bits of the position, i.e. the position modulo
the term length. -/
def computeTermOffsetFromPosition (position : Int) (positionBitsToShift : Nat) : Int :=
  position % 2 ^ positionBitsToShift

/-! ## Bit utilities -/

/-- Loop for `numberOfTrailingZeroes`: examines up to `fuel` low bits of `n`. -/
def ntzLoop : Nat → Nat → Nat
  | 0, _ => 0
  | fuel + 1, n => if n % 2 = 1 then 0 else ntzLoop fuel (n / 2) + 1

/-- Modelled from the spec: `util::BitUtil::numberOfTrailingZeroes` (header not
under src/) — the number of trailing zero bits of a 32-bit value
(32 for input 0). -/
def numberOfTrailingZeroes (n : Nat) : Nat :=
  ntzLoop 32 n

/-! ## Frames, partitions and the term appender (§4.4), modelled from the spec
(`TermAppender.h` is not under src/).  A partition's mutable state is its tail
counter plus the frames committed into its data buffer (most recent first). -/

/-- A committed frame in a term's data buffer: its term offset, the value of
its frame-length field (header + payload, unaligned), and its role
(padding or data). -/
structure Frame where
  termOffset : Nat
  frameLength : Nat
  isPadding : Bool
deriving DecidableEq

/-- One physical partition: the tail counter and the committed frames of its
data buffer (most recent first). -/
structure Partition where
  tail : Nat
  frames : List Frame
deriving DecidableEq

/-- Result of a term-appender reservation: the resulting offset (the value of
the tail counter after the reservation) on success, or the "term exhausted"
code that signals the publication to rotate. -/
inductive AppendResult where
  | success (resultingOffset : Nat)
  | exhausted
deriving DecidableEq

/-- Modelled from the spec: `TermAppender::append` (the offer path) —
an unconditional fetch-and-add on the tail counter followed by a bounded
write.  Outcomes: (1) success — the full frame (header + payload) is written
and committed; (2) candidate offset already ≥ term length — exhausted, no
bytes touched; (3) partial room — a single padding frame covering the
remainder of the term is committed and the exhausted code returned. -/
def appenderOffer (termLength : Nat) (p : Partition) (length : Nat) : AppendResult × Partition :=
  let frameLength := DataFrameHeader.LENGTH + length
  let alignedLength := alignedFrameLength length
  let termOffset := p.tail
  let newTail := termOffset + alignedLength
  if termLength ≤ termOffset then
    (AppendResult.exhausted, { p with tail := newTail })
  else if termLength < termOffset + alignedLength then
    (AppendResult.exhausted,
      { tail := newTail,
        frames := { termOffset := termOffset
                  , frameLength := termLength - termOffset
                  , isPadding := true } :: p.frames })
  else
    (AppendResult.success newTail,
      { tail := newTail,
        frames := { termOffset := termOffset
                  , frameLength := frameLength
                  , isPadding := false } :: p.frames })

/-- Modelled from the spec: `TermAppender::claim` — the same reservation
algorithm as the offer path, but on success the slot is only reserved (its
header length field left zero, hence no committed frame yet); the caller
commits later.  The padding frame in the partial-room outcome is committed
immediately, exactly as on the offer path. -/
def appenderClaim (termLength : Nat) (p : Partition) (length : Nat) : AppendResult × Partition :=
  let alignedLength := alignedFrameLength length
  let termOffset := p.tail
  let newTail := termOffset + alignedLength
  if termLength ≤ termOffset then
    (AppendResult.exhausted, { p with tail := newTail })
  else if termLength < termOffset + alignedLength then
    (AppendResult.exhausted,
      { tail := newTail,
        frames := { termOffset := termOffset
                  , frameLength := termLength - termOffset
                  , isPadding := true } :: p.frames })
  else
    (AppendResult.success newTail, { p with tail := newTail })

/-- Iterates `appenderOffer` with a fixed payload length `count` times,
returning whether every append succeeded, together with the final partition
state (stopping at the first exhaustion). -/
def offerRepeatedly (termLength length : Nat) : Nat → Partition → Bool × Partition
  | 0, p => (true, p)
  | count + 1, p =>
    match appenderOffer termLength p length with
    | (AppendResult.success _, q) => offerRepeatedly termLength length count q
    | (AppendResult.exhausted, q) => (false, q)

/-! ## The Publication object (from `Publication.cpp`) -/

/-- A term appender's 1:1 binding to a physical partition, recorded as the
indices of the two atomic buffers handed to its constructor: the data buffer
and the paired tail-counter (meta-data) buffer (`Publication.cpp` lines
50-52: `buffers.atomicBuffer(i)` and
`buffers.atomicBuffer(i + LogBufferDescriptor::PARTITION_COUNT)`). -/
structure TermAppender where
  termBufferIndex : Nat
  metaDataBufferIndex : Nat
deriving DecidableEq

/-- The fields of the log meta-data section read by the `Publication`
constructor (accessors `LogBufferDescriptor::initialTermId`,
`LogBufferDescriptor::mtuLength`, `LogBufferDescriptor::timeOfLastSm`;
header not under src/, field set modelled from the spec). -/
structure LogMetaData where
  initialTermId : Int
  mtuLength : Int
  timeOfLastSm : Int
deriving DecidableEq

/-- The immutable state of a `Publication` object as established by its
constructor (`Publication.cpp` lines 22-54). -/
structure Publication where
  channel : String
  registrationId : Int
  streamId : Int
  sessionId : Int
  initialTermId : Int
  maxPayloadLength : Int
  positionBitsToShift : Nat
  appenders : List TermAppender
deriving DecidableEq

/-- The `Publication` constructor (`Publication.cpp` lines 22-54):
`m_initialTermId` is read from the log meta-data;
`m_maxPayloadLength = mtuLength - DataFrameHeader::LENGTH` (line 38);
`m_positionBitsToShift = numberOfTrailingZeroes(buffers.atomicBuffer(0).capacity())`
(line 39, `termCapacity` is that capacity); and one term appender per
partition is bound to data buffer `i` and tail-counter buffer
`i + PARTITION_COUNT` (lines 43-53). -/
def mkPublication (channel : String) (registrationId streamId sessionId : Int)
    (metaData : LogMetaData) (termCapacity : Nat) : Publication :=
  { channel := channel
  , registrationId := registrationId
  , streamId := streamId
  , sessionId := sessionId
  , initialTermId := metaData.initialTermId
  , maxPayloadLength := metaData.mtuLength - (DataFrameHeader.LENGTH : Int)
  , positionBitsToShift := numberOfTrailingZeroes termCapacity
  , appenders :=
      (List.range PARTITION_COUNT).map
        (fun i => { termBufferIndex := i, metaDataBufferIndex := i + PARTITION_COUNT }) }

/-! ## Mutable shared log state and the append pipeline (§4.5), modelled from
the spec (`Publication.h`'s `offer`/`tryClaim` bodies are not under src/).
All mutable state lives in the shared buffers: the three partitions, the
active term id, the driver-maintained publication limit and the
"time of last status message" cell. -/

/-- The mutable shared state observed by a publication: the three partitions,
the active term id recorded in the log meta-data, the driver-owned
flow-control limit, and the driver-maintained "time of last status message". -/
structure LogState where
  partitions : List Partition
  activeTermId : Int
  publicationLimit : Int
  timeOfLastSm : Int
deriving DecidableEq

/-- Modelled from the spec: failure sentinel — "NOT_CONNECTED (no known
consumer yet)". -/
def NOT_CONNECTED : Int := -1

/-- Modelled from the spec: failure sentinel — "BACK_PRESSURED (limit
reached)". -/
def BACK_PRESSURED : Int := -2

/-- Modelled from the spec: failure sentinel — "ADMIN_ACTION (a rotation is in
progress elsewhere — caller should retry)". -/
def ADMIN_ACTION : Int := -3

/-- Modelled from the spec: failure sentinel — "MAX_POSITION_EXCEEDED (stream
position space exhausted)". -/
def MAX_POSITION_EXCEEDED : Int := -4

/-- Modelled from the spec: the distinct error for "payload too large"
(§7(3)), returned before any shared-state mutation. -/
def PAYLOAD_TOO_LARGE : Int := -5

/-- Modelled from the spec: the representable maximum of the 64-bit logical
position ("logical position would exceed the representable maximum"). -/
def MAX_POSITION : Int := 2 ^ 63 - 1

/-- Modelled from the spec: `currentPosition` — the active partition's tail
counter converted to a logical position, "bounded: never reports a value past
the actual committed tail" (the tail is capped at the term length). -/
def pubPosition (pub : Publication) (s : LogState) : Int :=
  let termLength : Nat := 2 ^ pub.positionBitsToShift
  let idx : Nat := partitionIndex s.activeTermId pub.initialTermId
  let part : Partition := s.partitions.getD idx { tail := 0, frames := [] }
  computeTermBeginPosition s.activeTermId pub.positionBitsToShift pub.initialTermId
    + ((min part.tail termLength : Nat) : Int)

/-- Modelled from the spec: term rotation — the next term id is recorded as
active and the now-reused partition's tail counter is reset to the new term's
starting offset before the rotation is visible. -/
def rotateLog (pub : Publication) (s : LogState) : LogState :=
  let nextTermId := s.activeTermId + 1
  let nextIdx := partitionIndex nextTermId pub.initialTermId
  { s with activeTermId := nextTermId
         , partitions := s.partitions.set nextIdx { tail := 0, frames := [] } }

/-- Modelled from the spec: the shared pipeline of `Publication::offer` /
`Publication::tryClaim` (§4.5): (1) read the flow-control limit; (2) if
`position + alignedFrameLength(length) > limit`, fail immediately with
back-pressure, no reservation attempted; then the no-consumer and
position-space checks; the oversize payload is rejected with a distinct error
before any reservation; otherwise delegate to the active partition's term
appender, and on term exhaustion rotate the log and return `ADMIN_ACTION`
for the caller to retry. -/
def publicationAppendAux (useClaim : Bool) (pub : Publication) (s : LogState) (length : Nat) :
    Int × LogState :=
  if s.publicationLimit < pubPosition pub s + (alignedFrameLength length : Int) then
    (BACK_PRESSURED, s)
  else if s.publicationLimit ≤ 0 then
    (NOT_CONNECTED, s)
  else if MAX_POSITION < pubPosition pub s + (alignedFrameLength length : Int) then
    (MAX_POSITION_EXCEEDED, s)
  else if pub.maxPayloadLength < (length : Int) then
    (PAYLOAD_TOO_LARGE, s)
  else
    let termLength : Nat := 2 ^ pub.positionBitsToShift
    let idx : Nat := partitionIndex s.activeTermId pub.initialTermId
    let part : Partition := s.partitions.getD idx { tail := 0, frames := [] }
    match (if useClaim then appenderClaim else appenderOffer) termLength part length with
    | (AppendResult.success resultingOffset, newPart) =>
      (computeTermBeginPosition s.activeTermId pub.positionBitsToShift pub.initialTermId
         + (resultingOffset : Int),
       { s with partitions := s.partitions.set idx newPart })
    | (AppendResult.exhausted, newPart) =>
      (ADMIN_ACTION, rotateLog pub { s with partitions := s.partitions.set idx newPart })

/-- The public append surface: `useClaim = false` is `Publication::offer`,
`useClaim = true` is `Publication::tryClaim`.  The publication object itself
is immutable across the call; the returned value pairs the result code /
position with the (unchanged) publication and the updated shared log state. -/
def publicationAppend (useClaim : Bool) (pub : Publication) (s : LogState) (length : Nat) :
    Int × Publication × LogState :=
  let r := publicationAppendAux useClaim pub s length
  (r.1, pub, r.2)

/-! ## Client conductor interactions (from `Publication.cpp`) -/

/-- The client conductor as observed by the publication: the registration ids
it has been asked to release, plus the clock and staleness threshold used by
its connectivity check. -/
structure ClientConductor where
  releasedRegistrationIds : List Int
  nowMs : Int
  publicationConnectionTimeoutMs : Int
deriving DecidableEq

/-- Modelled from the spec: `ClientConductor::releasePublication` — "on
release, notifies the driver the publication is gone"; records the released
registration id. -/
def releasePublication (c : ClientConductor) (registrationId : Int) : ClientConductor :=
  { c with releasedRegistrationIds := registrationId :: c.releasedRegistrationIds }

/-- Modelled from the spec: `ClientConductor::isPublicationConnected` — the
driver-maintained "time of last status message" timestamp "compared against a
staleness threshold". -/
def isPublicationConnected (c : ClientConductor) (timeOfLastStatusMessage : Int) : Bool :=
  decide (c.nowMs - timeOfLastStatusMessage ≤ c.publicationConnectionTimeoutMs)

/-- The destructor `Publication::~Publication` (`Publication.cpp` lines
56-59): its body is the single call
`m_conductor.releasePublication(m_registrationId)`; the shared log state is
not touched. -/
def destroyPublication (pub : Publication) (c : ClientConductor) (s : LogState) :
    ClientConductor × LogState :=
  (releasePublication c pub.registrationId, s)

/-- `Publication::isStillConnected` (`Publication.cpp` lines 61-64): reads
`LogBufferDescriptor::timeOfLastSm` from the log meta-data and passes it to
the conductor's check; conductor and log state are returned unchanged. -/
def isStillConnected (pub : Publication) (c : ClientConductor) (s : LogState) :
    Bool × ClientConductor × LogState :=
  (isPublicationConnected c s.timeOfLastSm, c, s)

/-! ## The throughput sample (`Throughput.cpp`, `Configuration.h`) -/

/-- `sizeof(std::int64_t)`: the lower bound on message lengths in the sample. -/
def sizeofInt64 : Int := 8

/-- `INT32_MAX`, the upper bound passed to `getParamAsInt` for lengths. -/
def INT32_MAX : Int := 2 ^ 31 - 1

/-- `samples::configuration::DEFAULT_MESSAGE_LENGTH` (`Configuration.h`
line 33). -/
def DEFAULT_MESSAGE_LENGTH : Int := 256

/-- Modelled from the spec: `CommandOption::getParamAsInt` (option-parsing
utility not under src/) — yields the supplied value only when it lies in
`[minValue, maxValue]`, and the default when the option is absent. -/
def getParamAsInt (param : Option Int) (minValue maxValue dflt : Int) : Option Int :=
  match param with
  | none => some dflt
  | some v => if minValue ≤ v ∧ v ≤ maxValue then some v else none

/-- The `messageLength` validation performed by `parseCmdLine`
(`Throughput.cpp` line 81):
`getParamAsInt(0, sizeof(std::int64_t), INT32_MAX, s.messageLength)` with the
default from `Configuration.h`. -/
def parseMessageLength (param : Option Int) : Option Int :=
  getParamAsInt param sizeofInt64 INT32_MAX DEFAULT_MESSAGE_LENGTH

/-- Modelled from the spec: a draw from `std::uniform_int_distribution` with
parameters `[lo, hi]` — an arbitrary entropy value `d` reduced onto the
closed interval `[lo, hi]`. -/
def uniformIntDraw (lo hi d : Int) : Int :=
  lo + d % (hi - lo + 1)

/-- `composeLengthGenerator` (`Throughput.cpp` lines 107-123): with
`random = true`, the returned generator draws from the file-scope uniform
distribution, whose parameters were set to `[sizeof(std::int64_t), max]`
by value before returning (that lambda reads only the file-scope statics);
with `random = false`, the source returns `[&]() { return max; }` — the
parameter `max` is captured by reference, and the generator is first invoked
from `main` (lines 227, 259) after `composeLengthGenerator`'s frame is dead,
so each call reads a dangling reference: it yields whatever indeterminate
value (`danglingMax`) the dead stack slot holds at that moment, not the value
of `max`.  `d` stands for the entropy consumed from the random engine by one
call of the generator. -/
def composeLengthGenerator (random : Bool) (max : Int) (danglingMax d : Int) : Int :=
  if random then uniformIntDraw sizeofInt64 max d else danglingMax

/-! ## Shared helper lemmas -/

/-- Aligning a frame length never shrinks it: `headerLength + payloadLength`
is a lower bound on `alignedFrameLength`. -/
lemma le_alignedFrameLength (length : Nat) :
    DataFrameHeader.LENGTH + length ≤ alignedFrameLength length := by
  unfold alignedFrameLength align FRAME_ALIGNMENT DataFrameHeader.LENGTH
  omega

/-- Trailing-zero count of a power of two below `2 ^ 32` is its exponent. -/
lemma ntz_two_pow : ∀ k, k < 32 → numberOfTrailingZeroes (2 ^ k) = k := by decide

/-! ## Claim theorems -/

/-- C1: for every valid input (`termLength = 2 ^ positionBitsToShift` and
`0 ≤ termOffset < termLength`), `computeTermIdFromPosition` recovers the term
id from `computePosition`, and the term offset is reconstructed exactly. -/
theorem computePosition_roundTrip (termId termOffset initialTermId : Int)
    (positionBitsToShift : Nat)
    (h0 : 0 ≤ termOffset) (h1 : termOffset < 2 ^ positionBitsToShift) :
    computeTermIdFromPosition
        (computePosition termId termOffset positionBitsToShift initialTermId)
        positionBitsToShift initialTermId = termId ∧
    computeTermOffsetFromPosition
        (computePosition termId termOffset positionBitsToShift initialTermId)
        positionBitsToShift = termOffset := by
  have hP : (0 : Int) < 2 ^ positionBitsToShift := by positivity
  constructor
  · unfold computeTermIdFromPosition computePosition computeTermBeginPosition
    rw [add_comm ((termId - initialTermId) * 2 ^ positionBitsToShift) termOffset,
        Int.add_mul_ediv_right termOffset (termId - initialTermId) (ne_of_gt hP),
        Int.ediv_eq_zero_of_lt h0 h1]
    ring
  · unfold computeTermOffsetFromPosition computePosition computeTermBeginPosition
    rw [add_comm ((termId - initialTermId) * 2 ^ positionBitsToShift) termOffset,
        mul_comm (termId - initialTermId) ((2 : Int) ^ positionBitsToShift),
        Int.add_mul_emod_self_left]
    exact Int.emod_eq_of_lt h0 h1

/-- C1 witness: the round trip at `termId = 7`, `termOffset = 100`,
`positionBitsToShift = 16`, `initialTermId = 3`. -/
theorem computePosition_roundTrip_witness :
    (0 : Int) ≤ 100 ∧ (100 : Int) < 2 ^ 16 ∧
    (computeTermIdFromPosition (computePosition 7 100 16 3) 16 3 = 7 ∧
     computeTermOffsetFromPosition (computePosition 7 100 16 3) 16 = 100) :=
  ⟨by decide, by decide, computePosition_roundTrip 7 100 3 16 (by decide) (by decide)⟩

/-- C4: the constructed publication's `maxPayloadLength` is the recorded MTU
length minus the fixed data-frame header length (`Publication.cpp` line 38). -/
theorem publication_maxPayloadLength_spec (channel : String)
    (registrationId streamId sessionId : Int)
    (metaData : LogMetaData) (termCapacity : Nat) :
    (mkPublication channel registrationId streamId sessionId metaData termCapacity).maxPayloadLength
      = metaData.mtuLength - (DataFrameHeader.LENGTH : Int) := rfl

/-- C5: when the partition-0 capacity is an exact power of two (a 32-bit
quantity, so `2 ^ k` with `k < 32`), the `positionBitsToShift` computed by the
constructor as its number of trailing zero bits equals `log2` of the term
length (`Publication.cpp` line 39). -/
theorem publication_positionBitsToShift_log2 (channel : String)
    (registrationId streamId sessionId : Int)
    (metaData : LogMetaData) (termCapacity : Nat) (k : Nat)
    (hk : k < 32) (hcap : termCapacity = 2 ^ k) :
    (mkPublication channel registrationId streamId sessionId metaData termCapacity).positionBitsToShift
      = Nat.log2 termCapacity := by
  subst hcap
  show numberOfTrailingZeroes (2 ^ k) = Nat.log2 (2 ^ k)
  rw [Nat.log2_two_pow]
  exact ntz_two_pow k hk

/-- C5 witness: a 64 KiB partition capacity gives
`positionBitsToShift = log2 65536 = 16`. -/
theorem publication_positionBitsToShift_log2_witness :
    16 < 32 ∧ 65536 = 2 ^ 16 ∧
    (mkPublication ("ch") 42 10 7
        { initialTermId := 0, mtuLength := 4096, timeOfLastSm := 0 } 65536).positionBitsToShift
      = Nat.log2 65536 :=
  ⟨by decide, by decide,
    publication_positionBitsToShift_log2 ("ch") 42 10 7
      { initialTermId := 0, mtuLength := 4096, timeOfLastSm := 0 } 65536 16
      (by decide) (by decide)⟩

/-- C6: the constructor builds exactly `PARTITION_COUNT = 3` term appenders,
the appender for partition `i` is bound to data buffer `i` paired with the
tail-counter buffer `i + PARTITION_COUNT` (`Publication.cpp` lines 43-53),
and no append operation changes the publication object (hence the binding)
after construction. -/
theorem publication_appenders_binding (channel : String)
    (registrationId streamId sessionId : Int)
    (metaData : LogMetaData) (termCapacity : Nat) :
    PARTITION_COUNT = 3 ∧
    (mkPublication channel registrationId streamId sessionId metaData termCapacity).appenders.length
      = PARTITION_COUNT ∧
    (∀ i : Fin 3,
      (mkPublication channel registrationId streamId sessionId metaData termCapacity).appenders.get? (i : Nat)
        = some { termBufferIndex := (i : Nat), metaDataBufferIndex := (i : Nat) + PARTITION_COUNT }) ∧
    (∀ (useClaim : Bool) (s : LogState) (length : Nat),
      (publicationAppend useClaim
          (mkPublication channel registrationId streamId sessionId metaData termCapacity) s length).2.1
        = mkPublication channel registrationId streamId sessionId metaData termCapacity) := by
  refine ⟨rfl, rfl, ?_, fun useClaim s length => rfl⟩
  intro i
  fin_cases i <;> rfl

/-- C8: destroying a publication performs exactly one effect — it releases its
registration id with the conductor — and leaves the shared log state
byte-for-byte unchanged (`Publication.cpp` lines 56-59). -/
theorem publication_destructor_effect (pub : Publication) (c : ClientConductor) (s : LogState) :
    destroyPublication pub c s = (releasePublication c pub.registrationId, s) ∧
    (destroyPublication pub c s).2 = s :=
  ⟨rfl, rfl⟩

/-- C9: `isStillConnected` is purely a read — it returns the conductor's
staleness check applied to the driver-maintained "time of last status
message" value from the log meta-data, and both the conductor and the shared
log state come back unchanged (`Publication.cpp` lines 61-64). -/
theorem isStillConnected_pure_read (pub : Publication) (c : ClientConductor) (s : LogState) :
    isStillConnected pub c s = (isPublicationConnected c s.timeOfLastSm, c, s) ∧
    (isStillConnected pub c s).2 = (c, s) :=
  ⟨rfl, rfl⟩

/-- C3: with term length 65536 and payload 64 (aligned frame length 96),
appends 1..682 all succeed within one term leaving the tail at
682 × 96 = 65472, and the 683rd append returns the exhaustion/rotation signal
with a padding frame of exactly 64 bytes committed at term offset 65472. -/
theorem termAppender_exhaustion_example :
    alignedFrameLength 64 = 96 ∧
    (offerRepeatedly 65536 64 682 { tail := 0, frames := [] }).1 = true ∧
    (offerRepeatedly 65536 64 682 { tail := 0, frames := [] }).2.tail = 65472 ∧
    (appenderOffer 65536 (offerRepeatedly 65536 64 682 { tail := 0, frames := [] }).2 64).1
      = AppendResult.exhausted ∧
    (appenderOffer 65536 (offerRepeatedly 65536 64 682 { tail := 0, frames := [] }).2 64).2.frames.head?
      = some { termOffset := 65472, frameLength := 64, isPadding := true } := by
  set_option maxRecDepth 20000 in decide

/-- C2: an offer/tryClaim whose current position plus aligned frame length
exceeds the flow-control limit fails with the back-pressure sentinel, and the
whole shared log state — in particular the tail counter of every partition —
is byte-for-byte unchanged: no reservation is attempted. -/
theorem publicationAppend_backPressured (useClaim : Bool) (pub : Publication)
    (s : LogState) (length : Nat)
    (h : s.publicationLimit < pubPosition pub s + (alignedFrameLength length : Int)) :
    publicationAppend useClaim pub s length = (BACK_PRESSURED, pub, s) ∧
    ∀ i : Nat,
      ((publicationAppend useClaim pub s length).2.2.partitions.getD i { tail := 0, frames := [] }).tail
        = (s.partitions.getD i { tail := 0, frames := [] }).tail := by
  have haux : publicationAppendAux useClaim pub s length = (BACK_PRESSURED, s) := by
    unfold publicationAppendAux
    rw [if_pos h]
  constructor
  · simp [publicationAppend, haux]
  · intro i
    simp [publicationAppend, haux]

/-- Concrete publication used by witnesses: 64 KiB terms, MTU 4096,
initial term id 0. -/
def witnessPub : Publication :=
  mkPublication ("ch") 1 10 7 { initialTermId := 0, mtuLength := 4096, timeOfLastSm := 0 } 65536

/-- Concrete shared log state used by witnesses: three empty partitions,
active term id 0, publication limit 0. -/
def witnessLog : LogState :=
  { partitions := [{ tail := 0, frames := [] }, { tail := 0, frames := [] }, { tail := 0, frames := [] }]
  , activeTermId := 0
  , publicationLimit := 0
  , timeOfLastSm := 0 }

/-- C2 witness: with the limit at 0 and position 0, a 256-byte offer is
back-pressured and the state is returned unchanged. -/
theorem publicationAppend_backPressured_witness :
    witnessLog.publicationLimit < pubPosition witnessPub witnessLog + (alignedFrameLength 256 : Int) ∧
    publicationAppend false witnessPub witnessLog 256 = (BACK_PRESSURED, witnessPub, witnessLog) :=
  ⟨by decide,
    (publicationAppend_backPressured false witnessPub witnessLog 256 (by decide)).1⟩

/-- The random branch of the generator really is bounded: its distribution
parameters were fixed by value, so for an accepted message length the drawn
length lies in `[sizeof(int64), max]`.  (The defect of C10 is confined to the
non-random branch.) -/
lemma composeLengthGenerator_random_bounds (param : Option Int) (maxLen : Int)
    (danglingMax d : Int)
    (h : parseMessageLength param = some maxLen) :
    sizeofInt64 ≤ composeLengthGenerator true maxLen danglingMax d ∧
    composeLengthGenerator true maxLen danglingMax d ≤ maxLen := by
  have h8 : sizeofInt64 = 8 := rfl
  have hmax : sizeofInt64 ≤ maxLen := by
    cases param with
    | none =>
      simp only [parseMessageLength, getParamAsInt] at h
      injection h with h2
      rw [← h2]
      decide
    | some v =>
      simp only [parseMessageLength, getParamAsInt] at h
      split_ifs at h with hv
      injection h with h2
      rw [← h2]
      exact hv.1
  have hm1 : 0 ≤ d % (maxLen - sizeofInt64 + 1) :=
    Int.emod_nonneg d (by omega)
  have hm2 : d % (maxLen - sizeofInt64 + 1) < maxLen - sizeofInt64 + 1 :=
    Int.emod_lt_of_pos d (by omega)
  have hval : composeLengthGenerator true maxLen danglingMax d
      = sizeofInt64 + d % (maxLen - sizeofInt64 + 1) := rfl
  rw [hval]
  omega

/-- C10: on the default (non-random) path the claimed bound
`sizeof(int64) ≤ length ≤ max` fails.  The source's non-random branch returns
a lambda capturing `max` by reference; by the time it is invoked the frame is
dead, so the generator yields the indeterminate value then in the dead stack
slot.  Concretely: `parseCmdLine` accepts `messageLength = 256`, yet with the
dead slot holding 0 the generated length is 0 — below `sizeof(int64)` — so
the 8-byte `putInt64` does not lie within the claimed length. -/
theorem composeLengthGenerator_dangling_violates_bounds :
    parseMessageLength (some 256) = some 256 ∧
    composeLengthGenerator false 256 0 0 = 0 ∧
    ¬ sizeofInt64 ≤ composeLengthGenerator false 256 0 0 := by
  decide

/-- A successful offer-path reservation implies the candidate offset (the
pre-add tail) was inside the term and the resulting offset is the candidate
plus the aligned frame length. -/
lemma appenderOffer_success_facts {termLength : Nat} {p : Partition} {length ro : Nat}
    {q : Partition}
    (h : appenderOffer termLength p length = (AppendResult.success ro, q)) :
    p.tail < termLength ∧ ro = p.tail + alignedFrameLength length := by
  simp only [appenderOffer] at h
  split_ifs at h with h1 h2
  · exact AppendResult.noConfusion (congrArg Prod.fst h)
  · exact AppendResult.noConfusion (congrArg Prod.fst h)
  · have h3 : AppendResult.success (p.tail + alignedFrameLength length)
        = AppendResult.success ro := congrArg Prod.fst h
    injection h3 with h4
    exact ⟨by omega, h4.symm⟩

/-- A successful claim-path reservation implies the candidate offset was
inside the term and the resulting offset is the candidate plus the aligned
frame length. -/
lemma appenderClaim_success_facts {termLength : Nat} {p : Partition} {length ro : Nat}
    {q : Partition}
    (h : appenderClaim termLength p length = (AppendResult.success ro, q)) :
    p.tail < termLength ∧ ro = p.tail + alignedFrameLength length := by
  simp only [appenderClaim] at h
  split_ifs at h with h1 h2
  · exact AppendResult.noConfusion (congrArg Prod.fst h)
  · exact AppendResult.noConfusion (congrArg Prod.fst h)
  · have h3 : AppendResult.success (p.tail + alignedFrameLength length)
        = AppendResult.success ro := congrArg Prod.fst h
    injection h3 with h4
    exact ⟨by omega, h4.symm⟩

/-- The success facts for whichever appender entry point the pipeline uses. -/
lemma appenderFor_success_facts (useClaim : Bool) {termLength : Nat} {p : Partition}
    {length ro : Nat} {q : Partition}
    (h : (if useClaim then appenderClaim else appenderOffer) termLength p length
          = (AppendResult.success ro, q)) :
    p.tail < termLength ∧ ro = p.tail + alignedFrameLength length := by
  cases useClaim
  · exact appenderOffer_success_facts h
  · exact appenderClaim_success_facts h

/-- On a successful reservation the returned logical position strictly
exceeds the pre-call position. -/
lemma pubPosition_lt_success (pub : Publication) (s : LogState) (length ro : Nat)
    (hlt : (s.partitions.getD (partitionIndex s.activeTermId pub.initialTermId)
              { tail := 0, frames := [] }).tail < 2 ^ pub.positionBitsToShift)
    (hro : ro = (s.partitions.getD (partitionIndex s.activeTermId pub.initialTermId)
              { tail := 0, frames := [] }).tail + alignedFrameLength length) :
    pubPosition pub s
      < computeTermBeginPosition s.activeTermId pub.positionBitsToShift pub.initialTermId
          + (ro : Int) := by
  subst hro
  simp only [pubPosition]
  apply add_lt_add_left
  rw [Nat.min_eq_left (Nat.le_of_lt hlt)]
  have h2 := le_alignedFrameLength length
  have h3 : DataFrameHeader.LENGTH = 32 := rfl
  exact_mod_cast
    (by omega :
      (s.partitions.getD (partitionIndex s.activeTermId pub.initialTermId)
          { tail := 0, frames := [] }).tail
        < (s.partitions.getD (partitionIndex s.activeTermId pub.initialTermId)
            { tail := 0, frames := [] }).tail + alignedFrameLength length)

/-- The sign dichotomy at the level of the append pipeline's core. -/
lemma publicationAppendAux_sign (useClaim : Bool) (pub : Publication) (s : LogState)
    (length : Nat) :
    (publicationAppendAux useClaim pub s length).1 < 0 ∨
      pubPosition pub s < (publicationAppendAux useClaim pub s length).1 := by
  by_cases hg1 : s.publicationLimit < pubPosition pub s + (alignedFrameLength length : Int)
  · left
    simp only [publicationAppendAux, if_pos hg1]
    decide
  by_cases hg2 : s.publicationLimit ≤ 0
  · left
    simp only [publicationAppendAux, if_neg hg1, if_pos hg2]
    decide
  by_cases hg3 : MAX_POSITION < pubPosition pub s + (alignedFrameLength length : Int)
  · left
    simp only [publicationAppendAux, if_neg hg1, if_neg hg2, if_pos hg3]
    decide
  by_cases hg4 : pub.maxPayloadLength < (length : Int)
  · left
    simp only [publicationAppendAux, if_neg hg1, if_neg hg2, if_neg hg3, if_pos hg4]
    decide
  rcases hA : (if useClaim then appenderClaim else appenderOffer)
      (2 ^ pub.positionBitsToShift)
      (s.partitions.getD (partitionIndex s.activeTermId pub.initialTermId)
        { tail := 0, frames := [] })
      length with ⟨res, newPart⟩
  cases res with
  | exhausted =>
    left
    simp only [publicationAppendAux, if_neg hg1, if_neg hg2, if_neg hg3, if_neg hg4, hA]
    decide
  | success ro =>
    right
    simp only [publicationAppendAux, if_neg hg1, if_neg hg2, if_neg hg3, if_neg hg4, hA]
    obtain ⟨hlt, hro⟩ := appenderFor_success_facts useClaim hA
    exact pubPosition_lt_success pub s length ro hlt hro

/-- C7: every failure outcome of offer/tryClaim — `NOT_CONNECTED`,
`BACK_PRESSURED`, `ADMIN_ACTION`, `MAX_POSITION_EXCEEDED` — is a negative
sentinel, the pre-call position is non-negative (for a valid state with
`initialTermId ≤ activeTermId`), and every call returns either a negative
value or a position strictly greater than the pre-call position, so the sign
test `result < 0` exactly distinguishes failure from success. -/
theorem publicationAppend_sign (useClaim : Bool) (pub : Publication) (s : LogState)
    (length : Nat)
    (hTerm : pub.initialTermId ≤ s.activeTermId) :
    NOT_CONNECTED < 0 ∧ BACK_PRESSURED < 0 ∧ ADMIN_ACTION < 0 ∧
    MAX_POSITION_EXCEEDED < 0 ∧
    0 ≤ pubPosition pub s ∧
    ((publicationAppend useClaim pub s length).1 < 0 ∨
      pubPosition pub s < (publicationAppend useClaim pub s length).1) := by
  have hpos : 0 ≤ pubPosition pub s := by
    simp only [pubPosition, computeTermBeginPosition]
    have h1 : (0 : Int) ≤ s.activeTermId - pub.initialTermId := by omega
    have h2 : (0 : Int) ≤ (2 : Int) ^ pub.positionBitsToShift := by positivity
    exact add_nonneg (mul_nonneg h1 h2) (Nat.cast_nonneg _)
  refine ⟨by decide, by decide, by decide, by decide, hpos, ?_⟩
  exact publicationAppendAux_sign useClaim pub s length

/-- C7 witness: for the concrete publication and state (active term id equal
to the initial term id 0), a 64-byte tryClaim obeys the sign dichotomy. -/
theorem publicationAppend_sign_witness :
    witnessPub.initialTermId ≤ witnessLog.activeTermId ∧
    (NOT_CONNECTED < 0 ∧ BACK_PRESSURED < 0 ∧ ADMIN_ACTION < 0 ∧
     MAX_POSITION_EXCEEDED < 0 ∧
     0 ≤ pubPosition witnessPub witnessLog ∧
     ((publicationAppend true witnessPub witnessLog 64).1 < 0 ∨
       pubPosition witnessPub witnessLog < (publicationAppend true witnessPub witnessLog 64).1)) :=
  ⟨by decide, publicationAppend_sign true witnessPub witnessLog 64 (by decide)⟩

end Aeron
